import Mathlib

/-!
Shallow embedding of the incidentfox investigation-history store
(`incidentfox_mcp/tools/history.py`).

Modelling conventions:
* SQLite tables become Lean lists of rows (in rowid, i.e. insertion, order).
* Timestamps: the code stores `datetime.utcnow().isoformat() + "Z"` strings and
  compares them with SQL string comparison; for well-formed ISO-8601 UTC strings
  that order is chronological, so timestamps are modelled as `Int` (seconds).
* `uuid.uuid4()[:8]` id generation and `utcnow()` are modelled as explicit
  `new_id` / `now` parameters of each operation.
* Python truthiness on `str | None` arguments (`if s:`) is `truthy` below.
* `REAL` confidence values are modelled as `Rat` (the only arithmetic performed
  on them is `max`, which is exact).
* `json.loads` on a caller-supplied id-list argument either fails (the
  exception propagates, modelled as `Except.error`) or yields a list of ids.
-/

/-- Python truthiness of a `str | None` value (`if s:`): `False` for `None`
and for the empty string. -/
def truthy : Option String → Bool
  | none => false
  | some s => !s.isEmpty

/-- ASCII lower-casing of a character list, modelling both Python `str.lower`
on the ASCII strings used here and SQLite's ASCII-only `LIKE` case folding. -/
def lowerList (cs : List Char) : List Char :=
  cs.map Char.toLower

/-- `prefixOf n h`: the character list `n` is a prefix of `h`
(Python `h.startswith(n)`). -/
def prefixOf : List Char → List Char → Bool
  | [], _ => true
  | _ :: _, [] => false
  | a :: as, b :: bs => a == b && prefixOf as bs

/-- `isSubstr n h`: `n` occurs contiguously in `h` (Python `n in h`).
The empty list is a substring of everything, as in Python. -/
def isSubstr (n : List Char) : List Char → Bool
  | [] => prefixOf n []
  | c :: h => prefixOf n (c :: h) || isSubstr n h

/-- Disjunction of `f` over all suffixes of a string: the semantics of a
leading `%` wildcard (it absorbs any prefix). -/
def likeStar (f : List Char → Bool) : List Char → Bool
  | [] => f []
  | c :: s => f (c :: s) || likeStar f s

/-- SQLite `LIKE` matching (case-insensitive on ASCII): `%` matches any
sequence of characters, `_` matches exactly one character. -/
def likeMatch : List Char → List Char → Bool
  | [], s => s.isEmpty
  | '%' :: ps, s => likeStar (likeMatch ps) s
  | '_' :: ps, s =>
    match s with
    | [] => false
    | _ :: s2 => likeMatch ps s2
  | p :: ps, s =>
    match s with
    | [] => false
    | c :: s2 => (p.toLower == c.toLower) && likeMatch ps s2

/-- `field LIKE '%query%'` on a nullable column: a SQL `NULL` never matches. -/
def likeOpt (field : Option String) (query : String) : Bool :=
  match field with
  | none => false
  | some s => likeMatch ('%' :: (query.toList ++ ['%'])) s.toList

/-- Stable descending insertion sort by a key, modelling SQL
`ORDER BY key DESC` and Python `list.sort(key=..., reverse=True)`. -/
def sortDescBy {α : Type} {β : Type} [LinearOrder β] (key : α → β) (l : List α) : List α :=
  @List.insertionSort α (fun a b => key b ≤ key a)
    (fun a b => inferInstanceAs (Decidable (key b ≤ key a))) l

/-- Stable ascending insertion sort by a key, modelling SQL `ORDER BY key`. -/
def sortAscBy {α : Type} {β : Type} [LinearOrder β] (key : α → β) (l : List α) : List α :=
  @List.insertionSort α (fun a b => key a ≤ key b)
    (fun a b => inferInstanceAs (Decidable (key a ≤ key b))) l

theorem sortDescBy_perm {α β : Type} [LinearOrder β] (key : α → β) (l : List α) :
    (sortDescBy key l).Perm l :=
  List.perm_insertionSort _ l

theorem sortAscBy_perm {α β : Type} [LinearOrder β] (key : α → β) (l : List α) :
    (sortAscBy key l).Perm l :=
  List.perm_insertionSort _ l

theorem sortDescBy_pairwise {α β : Type} [LinearOrder β] (key : α → β) (l : List α) :
    (sortDescBy key l).Pairwise (fun a b => key b ≤ key a) := by
  haveI : IsTotal α (fun a b => key b ≤ key a) := ⟨fun a b => le_total (key b) (key a)⟩
  haveI : IsTrans α (fun a b => key b ≤ key a) := ⟨fun _ _ _ h1 h2 => le_trans h2 h1⟩
  exact List.sorted_insertionSort _ l

theorem sortAscBy_pairwise {α β : Type} [LinearOrder β] (key : α → β) (l : List α) :
    (sortAscBy key l).Pairwise (fun a b => key a ≤ key b) := by
  haveI : IsTotal α (fun a b => key a ≤ key b) := ⟨fun a b => le_total (key a) (key b)⟩
  haveI : IsTrans α (fun a b => key a ≤ key b) := ⟨fun _ _ _ h1 h2 => le_trans h1 h2⟩
  exact List.sorted_insertionSort _ l

theorem sortDescBy_mem {α β : Type} [LinearOrder β] (key : α → β) (l : List α) (a : α) :
    a ∈ sortDescBy key l ↔ a ∈ l :=
  (sortDescBy_perm key l).mem_iff

theorem sortAscBy_mem {α β : Type} [LinearOrder β] (key : α → β) (l : List α) (a : α) :
    a ∈ sortAscBy key l ↔ a ∈ l :=
  (sortAscBy_perm key l).mem_iff

theorem sortDescBy_length {α β : Type} [LinearOrder β] (key : α → β) (l : List α) :
    (sortDescBy key l).length = l.length :=
  (sortDescBy_perm key l).length_eq

theorem sortAscBy_length {α β : Type} [LinearOrder β] (key : α → β) (l : List α) :
    (sortAscBy key l).length = l.length :=
  (sortAscBy_perm key l).length_eq

/-! ### Data model: the six store tables used by the claims -/

/-- Row of the `investigations` table. `severity` is nullable in the schema
(the insert path always supplies a value). -/
structure Investigation where
  id : String
  started_at : Int
  ended_at : Option Int
  service : Option String
  summary : Option String
  root_cause : Option String
  resolution : Option String
  severity : Option String
  tags : Option String
  status : String
deriving DecidableEq

/-- Row of the `findings` table; `ftype` models the `type` column. -/
structure Finding where
  id : String
  investigation_id : String
  timestamp : Int
  ftype : String
  title : Option String
  data : Option String
deriving DecidableEq

/-- Row of the `discovered_services` table; `nspace` models the `namespace`
column (a Lean keyword). -/
structure ServiceRow where
  id : String
  name : String
  nspace : Option String
  deployments : Option String
  description : Option String
  team : Option String
  discovered_at : Int
  source_tool : Option String
  synced_at : Option Int
deriving DecidableEq

/-- Row of the `discovered_dependencies` table. -/
structure DependencyRow where
  id : String
  from_service : String
  to_service : String
  evidence : Option String
  confidence : Rat
  discovered_at : Int
  synced_at : Option Int
deriving DecidableEq

/-- Row of the `suggested_known_issues` table. The `investigation_ids` column
stores `json.dumps` of a list of ids; the code always round-trips it through
`json.loads`/`json.dumps`, so it is modelled directly as a list. -/
structure KnownIssueRow where
  id : String
  pattern : String
  cause : String
  solution : String
  services : Option String
  occurrences : Nat
  investigation_ids : List String
  discovered_at : Int
  synced_at : Option Int
deriving DecidableEq

/-- The store state: the tables of `history.db` used by the claims
(`known_patterns` is touched by no claim). -/
structure DB where
  investigations : List Investigation
  findings : List Finding
  discovered_services : List ServiceRow
  discovered_dependencies : List DependencyRow
  suggested_known_issues : List KnownIssueRow
deriving DecidableEq

/-! ### Investigation lifecycle operations -/

/-- Payload of `start_investigation`. -/
structure StartResult where
  investigation_id : String
  started_at : Int
  service : Option String
  status : String
  message : String
deriving DecidableEq

/-- `start_investigation(service?, summary?, severity="unknown", tags?)`:
inserts a fresh `in_progress` row and returns its id. -/
def start_investigation (db : DB) (new_id : String) (now : Int)
    (service summary : Option String) (severity : String) (tags : Option String) :
    DB × StartResult :=
  let row : Investigation :=
    { id := new_id, started_at := now, ended_at := none, service := service,
      summary := summary, root_cause := none, resolution := none,
      severity := some severity, tags := tags, status := "in_progress" }
  ({ db with investigations := db.investigations ++ [row] },
   { investigation_id := new_id, started_at := now, service := service,
     status := "in_progress",
     message := "Investigation " ++ new_id ++
       " started. Use this ID to add findings and complete the investigation." })

/-- Payload of `add_finding`: either the `{"error": ...}` object or the
confirmation object (`ftype` models the `"type"` key). -/
inductive AddFindingResult where
  | error (msg : String)
  | ok (finding_id investigation_id ftype title : String) (timestamp : Int)
deriving DecidableEq

/-- `add_finding(investigation_id, finding_type, title, data?)`: verifies
that the investigation exists, then inserts a finding row. -/
def add_finding (db : DB) (new_id : String) (now : Int)
    (investigation_id finding_type title : String) (data : Option String) :
    DB × AddFindingResult :=
  match db.investigations.find? (fun r => r.id == investigation_id) with
  | none =>
    (db, .error ("Investigation " ++ investigation_id ++ " not found"))
  | some _ =>
    let row : Finding :=
      { id := new_id, investigation_id := investigation_id, timestamp := now,
        ftype := finding_type, title := some title, data := data }
    ({ db with findings := db.findings ++ [row] },
     .ok new_id investigation_id finding_type title now)

/-- Payload of `complete_investigation`. -/
inductive CompleteResult where
  | error (msg : String)
  | ok (investigation_id status root_cause resolution : String) (ended_at : Int)
deriving DecidableEq

/-- `complete_investigation(investigation_id, root_cause, resolution,
summary?)`: `UPDATE` of all columns (plus `summary` only when the argument is
truthy) on the matching row; a zero row count yields the error payload. The
code runs the update before checking `rowcount`; when the count is zero the
update changed nothing, so returning `db` unchanged is equivalent.
`completeUpd` is the per-row effect of the chosen `UPDATE` statement. -/
def completeUpd (now : Int) (root_cause resolution : String)
    (summary : Option String) (r : Investigation) : Investigation :=
  if truthy summary then
    { r with ended_at := some now, root_cause := some root_cause,
             resolution := some resolution, summary := summary,
             status := "completed" }
  else
    { r with ended_at := some now, root_cause := some root_cause,
             resolution := some resolution, status := "completed" }

def complete_investigation (db : DB) (now : Int)
    (investigation_id root_cause resolution : String) (summary : Option String) :
    DB × CompleteResult :=
  let rowcount := (db.investigations.filter (fun r => r.id == investigation_id)).length
  if rowcount == 0 then
    (db, .error ("Investigation " ++ investigation_id ++ " not found"))
  else
    ({ db with investigations :=
        db.investigations.map (fun r =>
          if r.id == investigation_id then
            completeUpd now root_cause resolution summary r
          else r) },
     .ok investigation_id "completed" root_cause resolution now)

/-- Payload of `get_investigation`: the row, its findings ordered by
timestamp, and the derived `finding_count`. -/
inductive GetInvestigationResult where
  | error (msg : String)
  | ok (inv : Investigation) (findings : List Finding) (finding_count : Nat)
deriving DecidableEq

/-- `get_investigation(investigation_id)`: the row plus
`SELECT * FROM findings WHERE investigation_id = ? ORDER BY timestamp`. -/
def get_investigation (db : DB) (investigation_id : String) :
    GetInvestigationResult :=
  match db.investigations.find? (fun r => r.id == investigation_id) with
  | none => .error ("Investigation " ++ investigation_id ++ " not found")
  | some inv =>
    let fs := sortAscBy (fun f => f.timestamp)
      (db.findings.filter (fun f => f.investigation_id == investigation_id))
    .ok inv fs fs.length

/-- One row passes the `WHERE` clause of `search_investigations`: the LIKE
block is added only when `query` is truthy, the service equality only when
`service` is truthy, and `started_at >= now - timedelta(days=days_ago)`
always (86400 seconds per day). -/
def searchCond (now : Int) (query service : Option String) (days_ago : Int)
    (r : Investigation) : Bool :=
  (if truthy query then
      likeOpt r.summary (query.getD "") || likeOpt r.root_cause (query.getD "") ||
        likeOpt r.resolution (query.getD "") || likeOpt r.tags (query.getD "")
    else true) &&
  (if truthy service then r.service == service else true) &&
  decide (now - days_ago * 86400 ≤ r.started_at)

/-- Payload of `search_investigations`. -/
structure SearchResult where
  query : Option String
  service : Option String
  days_ago : Int
  count : Nat
  investigations : List Investigation
deriving DecidableEq

/-- `search_investigations(query?, service?, days_ago=30, limit=20)`:
`SELECT * FROM investigations WHERE ... ORDER BY started_at DESC LIMIT ?`. -/
def search_investigations (db : DB) (now : Int) (query service : Option String)
    (days_ago : Int) (limit : Nat) : SearchResult :=
  let rows := (sortDescBy (fun r => r.started_at)
    (db.investigations.filter (searchCond now query service days_ago))).take limit
  { query := query, service := service, days_ago := days_ago,
    count := rows.length, investigations := rows }

/-- The candidate pool of `find_similar_investigations`: completed
investigations, optionally filtered by exact service, most recent first,
at most 100 (`ORDER BY started_at DESC LIMIT 100`). -/
def simCandidates (db : DB) (service : Option String) : List Investigation :=
  (sortDescBy (fun r => r.started_at)
    (db.investigations.filter (fun r =>
      r.status == "completed" &&
        (if truthy service then r.service == service else true)))).take 100

/-- The text-matching score of one candidate against the lower-cased error
message: +10 when the error message occurs in `root_cause.lower()`, +5 when it
occurs in `summary.lower()`, +3 when any comma-separated tag occurs in the
error message (each field guarded by Python truthiness of the column). -/
def invScore (errLower : List Char) (inv : Investigation) : Nat :=
  (if truthy inv.root_cause &&
      isSubstr errLower (lowerList (inv.root_cause.getD "").toList) then 10 else 0) +
  (if truthy inv.summary &&
      isSubstr errLower (lowerList (inv.summary.getD "").toList) then 5 else 0) +
  (if truthy inv.tags &&
      ((inv.tags.getD "").splitOn ",").any (fun t => isSubstr t.toList errLower)
    then 3 else 0)

/-- Payload of `find_similar_investigations` (the echoed `error_message` is
truncated to 100 characters, and omitted when falsy, as in the code). -/
structure FindSimilarResult where
  error_message : Option String
  service : Option String
  similar_count : Nat
  similar_investigations : List Investigation
deriving DecidableEq

/-- `find_similar_investigations(error_message?, service?, limit=5)`: with a
truthy error message, candidates are paired with their score, candidates with
score 0 are dropped, the rest are stable-sorted by descending score and the
top `limit` returned; otherwise the `limit` most recent candidates. -/
def find_similar_investigations (db : DB) (error_message service : Option String)
    (limit : Nat) : FindSimilarResult :=
  let candidates := simCandidates db service
  let similar :=
    if truthy error_message then
      let errLower := lowerList ((error_message.getD "").toList)
      let scored := (candidates.map (fun inv => (invScore errLower inv, inv))).filter
        (fun p => decide (0 < p.fst))
      ((sortDescBy (fun p => p.fst) scored).take limit).map (fun p => p.snd)
    else
      candidates.take limit
  { error_message :=
      if truthy error_message then some ((error_message.getD "").take 100) else none,
    service := service, similar_count := similar.length,
    similar_investigations := similar }

/-! ### Discovery recording operations -/

/-- Payload of `record_discovered_service`: the update branch or the insert
branch of the function. -/
inductive RecordServiceResult where
  | updated (service message : String)
  | recorded (id service message : String)
deriving DecidableEq

/-- `record_discovered_service(name, namespace?, deployments?, description?,
team?, source_tool?)`: keyed by `name`. On conflict, `namespace` and
`deployments` are set only when the argument is truthy and the stored value of
the fetched row is falsy; `description` and `team` are set whenever the
argument is truthy; nothing else (in particular `synced_at`) is touched.
Otherwise a fresh row is inserted with `synced_at` NULL. `serviceUpd` is the
conflict branch applied to one row of the `UPDATE ... WHERE name = ?`, with
the conditions evaluated on the fetched row `existing`. -/
def serviceUpd (existing : ServiceRow)
    (nspace deployments description team : Option String) (r : ServiceRow) :
    ServiceRow :=
  let r1 := if truthy nspace && !(truthy existing.nspace) then
    { r with nspace := nspace } else r
  let r2 := if truthy deployments && !(truthy existing.deployments) then
    { r1 with deployments := deployments } else r1
  let r3 := if truthy description then { r2 with description := description } else r2
  if truthy team then { r3 with team := team } else r3

def record_discovered_service (db : DB) (new_id : String) (now : Int)
    (name : String) (nspace deployments description team source_tool : Option String) :
    DB × RecordServiceResult :=
  match db.discovered_services.find? (fun r => r.name == name) with
  | some existing =>
    ({ db with discovered_services :=
        db.discovered_services.map (fun r =>
          if r.name == name then serviceUpd existing nspace deployments description team r
          else r) },
     .updated name ("Updated existing discovery for " ++ name))
  | none =>
    let row : ServiceRow :=
      { id := new_id, name := name, nspace := nspace, deployments := deployments,
        description := description, team := team, discovered_at := now,
        source_tool := source_tool, synced_at := none }
    ({ db with discovered_services := db.discovered_services ++ [row] },
     .recorded new_id name
       ("Discovered service \x27" ++ name ++
         "\x27 recorded. Run /sync-catalog to add to .incidentfox.yaml"))

/-- Payload of `record_discovered_dependency`. -/
inductive RecordDependencyResult where
  | updated (dependency : String) (confidence : Rat)
  | recorded (id dependency : String) (confidence : Rat) (message : String)
deriving DecidableEq

/-- The merged evidence on a dependency conflict: append with a `"; "`
separator when both the stored value and the argument are truthy. -/
def mergeEvidence (old incoming : Option String) : Option String :=
  if truthy incoming then
    if truthy old then some (old.getD "" ++ "; " ++ incoming.getD "")
    else incoming
  else old

/-- `record_discovered_dependency(from_service, to_service, evidence?,
confidence=0.5)`: keyed by the ordered pair. On conflict the fetched row gets
`confidence = max(old, new)` (`existing[1] or 0` only guards a NULL column,
which the insert path never produces; `or 0` on a number is the identity) and
merged evidence, via `UPDATE ... WHERE id = ?`. Otherwise a fresh row is
inserted with `synced_at` NULL. -/
def record_discovered_dependency (db : DB) (new_id : String) (now : Int)
    (from_service to_service : String) (evidence : Option String)
    (confidence : Rat) : DB × RecordDependencyResult :=
  match db.discovered_dependencies.find? (fun r =>
      r.from_service == from_service && r.to_service == to_service) with
  | some existing =>
    let new_confidence := max existing.confidence confidence
    let new_evidence := mergeEvidence existing.evidence evidence
    ({ db with discovered_dependencies :=
        db.discovered_dependencies.map (fun r =>
          if r.id == existing.id then
            { r with confidence := new_confidence, evidence := new_evidence }
          else r) },
     .updated (from_service ++ " -> " ++ to_service) new_confidence)
  | none =>
    let row : DependencyRow :=
      { id := new_id, from_service := from_service, to_service := to_service,
        evidence := evidence, confidence := confidence, discovered_at := now,
        synced_at := none }
    ({ db with discovered_dependencies := db.discovered_dependencies ++ [row] },
     .recorded new_id (from_service ++ " -> " ++ to_service) confidence
       "Dependency recorded. Run /sync-catalog to add to .incidentfox.yaml")

/-- Payload of `suggest_known_issue`. -/
inductive SuggestIssueResult where
  | updated (pattern : String) (occurrences : Nat) (message : String)
  | recorded (id pattern message : String)
deriving DecidableEq

/-- `suggest_known_issue(pattern, cause, solution, services?,
investigation_id?)`: keyed by `pattern`. On conflict: `occurrences + 1`, the
truthy investigation id appended when not already present, and `cause`,
`solution`, `services` overwritten unconditionally, via
`UPDATE ... WHERE id = ?`; `synced_at` is not touched. Otherwise a fresh row
with `occurrences = 1` and `synced_at` NULL. -/
def suggest_known_issue (db : DB) (new_id : String) (now : Int)
    (pattern cause solution : String) (services investigation_id : Option String) :
    DB × SuggestIssueResult :=
  match db.suggested_known_issues.find? (fun r => r.pattern == pattern) with
  | some existing =>
    let occurrences := existing.occurrences + 1
    let inv_ids :=
      if truthy investigation_id &&
          !(existing.investigation_ids.contains (investigation_id.getD "")) then
        existing.investigation_ids ++ [investigation_id.getD ""]
      else existing.investigation_ids
    ({ db with suggested_known_issues :=
        db.suggested_known_issues.map (fun r =>
          if r.id == existing.id then
            { r with occurrences := occurrences, investigation_ids := inv_ids,
                     cause := cause, solution := solution, services := services }
          else r) },
     .updated pattern occurrences
       ("Pattern seen " ++ toString occurrences ++
         " times. Run /sync-catalog to add to .incidentfox.yaml"))
  | none =>
    let inv_ids := if truthy investigation_id then [investigation_id.getD ""] else []
    let row : KnownIssueRow :=
      { id := new_id, pattern := pattern, cause := cause, solution := solution,
        services := services, occurrences := 1, investigation_ids := inv_ids,
        discovered_at := now, synced_at := none }
    ({ db with suggested_known_issues := db.suggested_known_issues ++ [row] },
     .recorded new_id pattern
       "Known issue suggestion recorded. Run /sync-catalog to add to .incidentfox.yaml")

/-- Payload of `get_pending_discoveries`: the three per-type groups with their
counts, the overall total and the hint. -/
structure PendingResult where
  total_pending : Nat
  services_count : Nat
  services : List ServiceRow
  dependencies_count : Nat
  dependencies : List DependencyRow
  known_issues_count : Nat
  known_issues : List KnownIssueRow
  hint : String
deriving DecidableEq

/-- `get_pending_discoveries()`: the rows of each discovery table with
`synced_at IS NULL`, ordered by `discovered_at DESC` / `confidence DESC` /
`occurrences DESC` respectively. -/
def get_pending_discoveries (db : DB) : PendingResult :=
  let services := sortDescBy (fun r => r.discovered_at)
    (db.discovered_services.filter (fun r => r.synced_at == none))
  let dependencies := sortDescBy (fun r => r.confidence)
    (db.discovered_dependencies.filter (fun r => r.synced_at == none))
  let known_issues := sortDescBy (fun r => r.occurrences)
    (db.suggested_known_issues.filter (fun r => r.synced_at == none))
  let total := services.length + dependencies.length + known_issues.length
  { total_pending := total,
    services_count := services.length, services := services,
    dependencies_count := dependencies.length, dependencies := dependencies,
    known_issues_count := known_issues.length, known_issues := known_issues,
    hint := if 0 < total then
        "Use /sync-catalog to review and add these to .incidentfox.yaml"
      else "No pending discoveries" }

/-- A serialized id-list argument of `mark_discoveries_synced` as the code
sees it after Python truthiness: either text on which `json.loads` raises, or
a JSON array of id strings. (`None` and `""` arguments are falsy and skipped
before any parse; they are modelled as the absent argument.) -/
inductive IdsArg where
  | malformed
  | idList (ids : List String)
deriving DecidableEq

/-- `json.loads` on a truthy id-list argument: the `JSONDecodeError` on
malformed text propagates out of the operation. -/
def parseIds : Option IdsArg → Except String (List String)
  | none => .ok []
  | some .malformed => .error "json.JSONDecodeError"
  | some (.idList ids) => .ok ids

/-- The per-table loop of `mark_discoveries_synced`: for each id in order,
count the rows the `UPDATE ... WHERE id = ?` affects and set their
`synced_at`. -/
def markRows {ρ : Type} (getId : ρ → String) (setSync : ρ → ρ) :
    List ρ → List String → List ρ × Nat
  | rows, [] => (rows, 0)
  | rows, i :: rest =>
    let cnt := (rows.filter (fun r => getId r == i)).length
    let rows2 := rows.map (fun r => if getId r == i then setSync r else r)
    let p := markRows getId setSync rows2 rest
    (p.fst, cnt + p.snd)

/-- Payload of `mark_discoveries_synced`. -/
structure MarkCounts where
  services : Nat
  dependencies : Nat
  known_issues : Nat
  total : Nat
  message : String
deriving DecidableEq

/-- `mark_discoveries_synced(service_ids?, dependency_ids?, known_issue_ids?)`:
parses each truthy argument with `json.loads` and sets `synced_at = now` per
id, accumulating `cursor.rowcount`. The code interleaves parsing and updating
(services first, then dependencies, then known issues) and commits only at the
end, so a parse failure anywhere propagates with the store unchanged —
`Except.error` therefore carries no store. -/
def mark_discoveries_synced (db : DB) (now : Int)
    (service_ids dependency_ids known_issue_ids : Option IdsArg) :
    Except String (DB × MarkCounts) := do
  let sids ← parseIds service_ids
  let sres := markRows (fun r => r.id)
    (fun r => { r with synced_at := some now }) db.discovered_services sids
  let dids ← parseIds dependency_ids
  let dres := markRows (fun r => r.id)
    (fun r => { r with synced_at := some now }) db.discovered_dependencies dids
  let kids ← parseIds known_issue_ids
  let kres := markRows (fun r => r.id)
    (fun r => { r with synced_at := some now }) db.suggested_known_issues kids
  let total := sres.snd + dres.snd + kres.snd
  .ok ({ db with discovered_services := sres.fst,
                 discovered_dependencies := dres.fst,
                 suggested_known_issues := kres.fst },
       { services := sres.snd, dependencies := dres.snd, known_issues := kres.snd,
         total := total,
         message := "Marked " ++ toString total ++ " discoveries as synced" })

/-! ### General lemmas about the query building blocks -/

theorem find?_of_filter_singleton {α : Type} {p : α → Bool} {l : List α} {r : α}
    (h : l.filter p = [r]) : l.find? p = some r := by
  induction l with
  | nil => simp at h
  | cons a t ih =>
    by_cases hp : p a
    · rw [List.filter_cons_of_pos hp] at h
      have ha : a = r := List.head_eq_of_cons_eq h
      subst ha
      rw [List.find?_cons]
      simp [hp]
    · rw [List.filter_cons_of_neg hp] at h
      rw [List.find?_cons]
      simp only [hp]
      exact ih h

theorem pred_of_filter_singleton {α : Type} {p : α → Bool} {l : List α} {r : α}
    (h : l.filter p = [r]) : p r = true := by
  have : r ∈ l.filter p := by rw [h]; exact List.mem_singleton_self r
  exact (List.mem_filter.mp this).2

theorem filter_map_comm {α : Type} (p : α → Bool) (f : α → α)
    (hf : ∀ x, p (f x) = p x) (l : List α) :
    (l.map f).filter p = (l.filter p).map f := by
  rw [List.filter_map]
  have : (p ∘ f) = p := funext (fun x => hf x)
  rw [this]

theorem mem_take_of_mem {α : Type} {a : α} {n : Nat} {l : List α}
    (h : a ∈ l.take n) : a ∈ l :=
  (List.take_sublist n l).subset h

/-! ### Lemmas about the mark-synced per-table loop -/

theorem markRows_fst {ρ : Type} (getId : ρ → String) (setSync : ρ → ρ)
    (hid : ∀ r, getId (setSync r) = getId r)
    (hidem : ∀ r, setSync (setSync r) = setSync r) :
    ∀ (ids : List String) (rows : List ρ),
      (markRows getId setSync rows ids).fst =
        rows.map (fun r => if ids.contains (getId r) then setSync r else r) := by
  intro ids
  induction ids with
  | nil =>
    intro rows
    simp [markRows]
  | cons i rest ih =>
    intro rows
    show (markRows getId setSync
        (rows.map (fun r => if getId r == i then setSync r else r)) rest).fst = _
    rw [ih, List.map_map]
    refine List.map_congr_left (fun r _ => ?_)
    simp only [Function.comp_apply, List.contains_cons]
    by_cases hri : getId r = i
    · simp [hri, hid, hidem]
    · simp [hri]

theorem markRows_snd {ρ : Type} (getId : ρ → String) (setSync : ρ → ρ)
    (hid : ∀ r, getId (setSync r) = getId r) :
    ∀ (ids : List String) (rows : List ρ),
      (markRows getId setSync rows ids).snd =
        (ids.map (fun i => (rows.filter (fun r => getId r == i)).length)).sum := by
  intro ids
  induction ids with
  | nil => intro rows; simp [markRows]
  | cons i rest ih =>
    intro rows
    show ((rows.filter (fun r => getId r == i)).length +
        (markRows getId setSync
          (rows.map (fun r => if getId r == i then setSync r else r)) rest).snd) = _
    rw [ih]
    simp only [List.map_cons, List.sum_cons]
    congr 1
    refine congrArg List.sum (List.map_congr_left (fun j _ => ?_))
    rw [filter_map_comm _ _ (fun r => ?_) rows]
    · exact List.length_map _ _
    · by_cases hri : getId r == i
      · simp [hri, hid r]
      · simp [hri]


/-! ### Claim C1 -/

theorem serviceUpd_flat (existing : ServiceRow)
    (nspace deployments description team : Option String) (r : ServiceRow) :
    serviceUpd existing nspace deployments description team r =
      { r with
          nspace := if truthy nspace && !(truthy existing.nspace) then nspace
            else r.nspace,
          deployments :=
            if truthy deployments && !(truthy existing.deployments) then deployments
            else r.deployments,
          description := if truthy description then description else r.description,
          team := if truthy team then team else r.team } := by
  by_cases h1 : (truthy nspace && !(truthy existing.nspace)) = true <;>
    by_cases h2 : (truthy deployments && !(truthy existing.deployments)) = true <;>
    by_cases h3 : truthy description = true <;>
    by_cases h4 : truthy team = true <;>
    simp [serviceUpd, h1, h2, h3, h4]

theorem serviceUpd_name (existing : ServiceRow)
    (nspace deployments description team : Option String) (r : ServiceRow) :
    (serviceUpd existing nspace deployments description team r).name = r.name := by
  rw [serviceUpd_flat]

theorem serviceUpd_id (existing : ServiceRow)
    (nspace deployments description team : Option String) (r : ServiceRow) :
    (serviceUpd existing nspace deployments description team r).id = r.id := by
  rw [serviceUpd_flat]

theorem serviceUpd_synced (existing : ServiceRow)
    (nspace deployments description team : Option String) (r : ServiceRow) :
    (serviceUpd existing nspace deployments description team r).synced_at =
      r.synced_at := by
  rw [serviceUpd_flat]

/-- C1: on a `record_discovered_service` call whose `name` already has exactly
one stored row, the store keeps a single row for that name; `namespace` and
`deployments` are updated only if the stored value was empty
(first-writer-wins), while `description` and `team` are overwritten whenever
the call supplies a non-empty value (last-writer-wins). -/
theorem record_discovered_service_upsert
    (db : DB) (new_id : String) (now : Int) (name : String)
    (nspace deployments description team source_tool : Option String)
    (r : ServiceRow)
    (h : db.discovered_services.filter (fun s => s.name == name) = [r]) :
    ((record_discovered_service db new_id now name nspace deployments description
        team source_tool).fst.discovered_services.filter (fun s => s.name == name)) =
      [{ r with
          nspace := if truthy nspace && !(truthy r.nspace) then nspace else r.nspace,
          deployments :=
            if truthy deployments && !(truthy r.deployments) then deployments
            else r.deployments,
          description := if truthy description then description else r.description,
          team := if truthy team then team else r.team }] := by
  have hfind := find?_of_filter_singleton h
  have hr : (r.name == name) = true := by
    have hp := pred_of_filter_singleton h
    exact hp
  unfold record_discovered_service
  rw [hfind]
  simp only
  rw [filter_map_comm (fun s => s.name == name)
    (fun x => if x.name == name then serviceUpd r nspace deployments description team x
      else x)
    (fun x => by
      by_cases hx : (x.name == name) = true
      · simp [hx, serviceUpd_name]
      · simp [hx])
    db.discovered_services]
  rw [h]
  simp only [List.map_cons, List.map_nil, hr, if_pos]
  rw [serviceUpd_flat]

/-- Witness for C1: from an empty store,
`record_discovered_service("svc-a", namespace="ns1")` followed by
`record_discovered_service("svc-a", namespace="ns2", description="d")` leaves
a single row with `namespace="ns1"` (preserved) and `description="d"`
(overwritten). -/
theorem record_discovered_service_upsert_witness :
    ((record_discovered_service
        (record_discovered_service ⟨[], [], [], [], []⟩ "id1" 0 "svc-a"
          (some "ns1") none none none none).fst
        "id2" 1 "svc-a" (some "ns2") none (some "d") none
        none).fst.discovered_services.filter (fun s => s.name == "svc-a")) =
      [{ id := "id1", name := "svc-a", nspace := some "ns1", deployments := none,
         description := some "d", team := none, discovered_at := 0,
         source_tool := none, synced_at := none }] := by
  have h := record_discovered_service_upsert
    (record_discovered_service ⟨[], [], [], [], []⟩ "id1" 0 "svc-a"
      (some "ns1") none none none none).fst
    "id2" 1 "svc-a" (some "ns2") none (some "d") none none
    { id := "id1", name := "svc-a", nspace := some "ns1", deployments := none,
      description := none, team := none, discovered_at := 0, source_tool := none,
      synced_at := none }
    (by decide)
  simpa [truthy] using h

/-! ### Claim C2 -/

/-- C2: on a `record_discovered_dependency` call whose ordered pair
`(from_service, to_service)` already has exactly one stored row, the stored
confidence becomes `max(old, new)` — hence it never decreases — and a
supplied evidence string is appended to the stored evidence with a `"; "`
separator rather than replacing it. -/
theorem record_discovered_dependency_upsert
    (db : DB) (new_id : String) (now : Int) (from_service to_service : String)
    (evidence : Option String) (confidence : Rat) (r : DependencyRow)
    (h : db.discovered_dependencies.filter
        (fun d => d.from_service == from_service && d.to_service == to_service) = [r]) :
    ((record_discovered_dependency db new_id now from_service to_service evidence
        confidence).fst.discovered_dependencies.filter
        (fun d => d.from_service == from_service && d.to_service == to_service)) =
      [{ r with
          confidence := max r.confidence confidence,
          evidence :=
            if truthy evidence then
              if truthy r.evidence then
                some (r.evidence.getD "" ++ "; " ++ evidence.getD "")
              else evidence
            else r.evidence }]
    ∧ r.confidence ≤ max r.confidence confidence
    ∧ (record_discovered_dependency db new_id now from_service to_service evidence
        confidence).snd =
        .updated (from_service ++ " -> " ++ to_service) (max r.confidence confidence) := by
  have hfind := find?_of_filter_singleton h
  refine ⟨?_, le_max_left _ _, ?_⟩
  · unfold record_discovered_dependency
    rw [hfind]
    simp only
    rw [filter_map_comm
      (fun d => d.from_service == from_service && d.to_service == to_service)
      (fun x => if x.id == r.id then
          { x with confidence := max r.confidence confidence,
                   evidence := mergeEvidence r.evidence evidence }
        else x)
      (fun x => by by_cases hx : (x.id == r.id) = true <;> simp [hx])
      db.discovered_dependencies]
    rw [h]
    simp [mergeEvidence]
  · unfold record_discovered_dependency
    rw [hfind]

/-- Witness for C2: from an empty store, recording the dependency
`("a","b")` with confidence 0.3 and evidence "e1" and then again with
confidence 0.2 and evidence "e2" yields confidence `max(0.3, 0.2) = 0.3` and
evidence `"e1; e2"` (both observations kept). -/
theorem record_discovered_dependency_upsert_witness :
    ((record_discovered_dependency
        (record_discovered_dependency ⟨[], [], [], [], []⟩ "d1" 0 "a" "b"
          (some "e1") (3 / 10)).fst
        "d2" 1 "a" "b" (some "e2")
        (2 / 10)).fst.discovered_dependencies.filter
        (fun d => d.from_service == "a" && d.to_service == "b")) =
      [{ id := "d1", from_service := "a", to_service := "b",
         evidence := some "e1; e2", confidence := 3 / 10, discovered_at := 0,
         synced_at := none }] ∧
    max ((3 : Rat) / 10) (2 / 10) = 3 / 10 := by
  have h := record_discovered_dependency_upsert
    (record_discovered_dependency ⟨[], [], [], [], []⟩ "d1" 0 "a" "b"
      (some "e1") (3 / 10)).fst
    "d2" 1 "a" "b" (some "e2") (2 / 10)
    { id := "d1", from_service := "a", to_service := "b", evidence := some "e1",
      confidence := 3 / 10, discovered_at := 0, synced_at := none }
    (by rfl)
  have hm : max ((3 : Rat) / 10) ((2 : Rat) / 10) = (3 : Rat) / 10 := by
    rw [max_def]
    norm_num
  refine ⟨?_, hm⟩
  have h1 := h.1
  rw [hm] at h1
  exact h1

/-! ### Claim C4 -/

/-- C4: `add_finding` against a non-existent `investigation_id` returns the
error payload and inserts nothing (the whole store is unchanged); against an
existing one it succeeds, returning the freshly generated finding id and the
current UTC time, and appends exactly one finding row carrying them. -/
theorem add_finding_spec (db : DB) (new_id : String) (now : Int)
    (iid ft title : String) (data : Option String) :
    ((∀ x ∈ db.investigations, x.id ≠ iid) →
      (add_finding db new_id now iid ft title data).snd =
          .error ("Investigation " ++ iid ++ " not found") ∧
        (add_finding db new_id now iid ft title data).fst = db)
    ∧ ((∃ x ∈ db.investigations, x.id = iid) →
      (add_finding db new_id now iid ft title data).snd =
          .ok new_id iid ft title now ∧
        (add_finding db new_id now iid ft title data).fst.findings =
          db.findings ++
            [{ id := new_id, investigation_id := iid, timestamp := now,
               ftype := ft, title := some title, data := data }] ∧
        (add_finding db new_id now iid ft title data).fst.investigations =
          db.investigations) := by
  constructor
  · intro hnone
    have hfind : db.investigations.find? (fun x => x.id == iid) = none := by
      rw [List.find?_eq_none]
      intro x hx
      simp [hnone x hx]
    unfold add_finding
    rw [hfind]
    exact ⟨rfl, rfl⟩
  · intro hex
    have hsome : (db.investigations.find? (fun x => x.id == iid)).isSome = true := by
      rw [List.find?_isSome]
      obtain ⟨x, hx, hid⟩ := hex
      exact ⟨x, hx, by simp [hid]⟩
    obtain ⟨v, hv⟩ := Option.isSome_iff_exists.mp hsome
    unfold add_finding
    rw [hv]
    exact ⟨rfl, rfl, rfl⟩

/-- Witness for C4: on an empty store `add_finding` returns the error payload,
and with investigation `"i1"` present it returns the confirmation payload. -/
theorem add_finding_spec_witness :
    ((add_finding ⟨[], [], [], [], []⟩ "f1" 0 "i1" "log_error" "t" none).snd =
        .error ("Investigation " ++ "i1" ++ " not found")) ∧
    ((add_finding
        ⟨[{ id := "i1", started_at := 0, ended_at := none, service := none,
            summary := none, root_cause := none, resolution := none,
            severity := some "unknown", tags := none, status := "in_progress" }],
          [], [], [], []⟩
        "f1" 5 "i1" "log_error" "t" none).snd = .ok "f1" "i1" "log_error" "t" 5) := by
  constructor
  · exact ((add_finding_spec ⟨[], [], [], [], []⟩ "f1" 0 "i1" "log_error" "t"
      none).1 (by decide)).1
  · exact ((add_finding_spec
      ⟨[{ id := "i1", started_at := 0, ended_at := none, service := none,
          summary := none, root_cause := none, resolution := none,
          severity := some "unknown", tags := none, status := "in_progress" }],
        [], [], [], []⟩
      "f1" 5 "i1" "log_error" "t" none).2
      ⟨_, List.mem_singleton_self _, rfl⟩).1

/-! ### Claim C5 -/

theorem completeUpd_flat (now : Int) (rc res : String) (s : Option String)
    (r : Investigation) :
    completeUpd now rc res s r =
      { r with ended_at := some now, root_cause := some rc,
               resolution := some res, status := "completed",
               summary := if truthy s then s else r.summary } := by
  by_cases hs : truthy s = true <;> simp [completeUpd, hs]

theorem completeUpd_id (now : Int) (rc res : String) (s : Option String)
    (r : Investigation) : (completeUpd now rc res s r).id = r.id := by
  rw [completeUpd_flat]

theorem complete_investigation_filter (db : DB) (now : Int)
    (iid rc res : String) (s : Option String) (r : Investigation)
    (h : db.investigations.filter (fun x => x.id == iid) = [r]) :
    (complete_investigation db now iid rc res s).snd =
        .ok iid "completed" rc res now ∧
      ((complete_investigation db now iid rc res s).fst.investigations.filter
        (fun x => x.id == iid)) = [completeUpd now rc res s r] := by
  have hr : (r.id == iid) = true := by
    have hp := pred_of_filter_singleton h
    exact hp
  have hcount :
      ((db.investigations.filter (fun x => x.id == iid)).length == 0) = false := by
    rw [h]
    rfl
  unfold complete_investigation
  simp only [hcount, Bool.false_eq_true, if_false]
  refine ⟨by trivial, ?_⟩
  rw [filter_map_comm (fun x => x.id == iid)
    (fun x => if x.id == iid then completeUpd now rc res s x else x)
    (fun x => by
      by_cases hx : (x.id == iid) = true
      · simp [hx, completeUpd_id]
      · simp [hx])
    db.investigations]
  rw [h]
  simp only [List.map_cons, List.map_nil, hr, if_pos]

/-- C5: `complete_investigation` on an existing investigation (here: exactly
one stored row with that id) succeeds, and succeeds again when called a second
time, the second call overwriting `root_cause`/`resolution` (and `ended_at`);
`summary` is overwritten only when a truthy summary argument is supplied and
kept otherwise; on a non-existent id (zero-row update count) it returns the
error payload and leaves the store unchanged. -/
theorem complete_investigation_spec
    (db : DB) (iid rc1 res1 rc2 res2 : String) (s1 s2 : Option String)
    (now1 now2 : Int) (r : Investigation) :
    (db.investigations.filter (fun x => x.id == iid) = [r] →
      (complete_investigation db now1 iid rc1 res1 s1).snd =
          .ok iid "completed" rc1 res1 now1 ∧
        (complete_investigation
            (complete_investigation db now1 iid rc1 res1 s1).fst
            now2 iid rc2 res2 s2).snd = .ok iid "completed" rc2 res2 now2 ∧
        ((complete_investigation
            (complete_investigation db now1 iid rc1 res1 s1).fst
            now2 iid rc2 res2 s2).fst.investigations.filter
              (fun x => x.id == iid)) =
          [{ r with ended_at := some now2, root_cause := some rc2,
                    resolution := some res2, status := "completed",
                    summary := if truthy s2 then s2
                      else if truthy s1 then s1 else r.summary }])
    ∧ ((∀ x ∈ db.investigations, x.id ≠ iid) →
      (complete_investigation db now1 iid rc1 res1 s1).snd =
          .error ("Investigation " ++ iid ++ " not found") ∧
        (complete_investigation db now1 iid rc1 res1 s1).fst = db) := by
  constructor
  · intro h
    obtain ⟨h1snd, h1filter⟩ :=
      complete_investigation_filter db now1 iid rc1 res1 s1 r h
    obtain ⟨h2snd, h2filter⟩ :=
      complete_investigation_filter _ now2 iid rc2 res2 s2 _ h1filter
    refine ⟨h1snd, h2snd, ?_⟩
    rw [h2filter, completeUpd_flat, completeUpd_flat]
  · intro hnone
    have hnil : db.investigations.filter (fun x => x.id == iid) = [] := by
      rw [List.filter_eq_nil_iff]
      intro x hx
      simp [hnone x hx]
    have hc :
        ((db.investigations.filter (fun x => x.id == iid)).length == 0) = true := by
      rw [hnil]
      rfl
    unfold complete_investigation
    rw [if_pos hc]
    exact ⟨rfl, rfl⟩

/-- Witness for C5: with one in-progress investigation `"i1"`, completing it
twice with different root causes succeeds both times and leaves the second
root cause and resolution stored. -/
theorem complete_investigation_spec_witness :
    ((complete_investigation
        ⟨[{ id := "i1", started_at := 0, ended_at := none, service := none,
            summary := none, root_cause := none, resolution := none,
            severity := some "unknown", tags := none, status := "in_progress" }],
          [], [], [], []⟩
        1 "i1" "rc1" "res1" none).snd = .ok "i1" "completed" "rc1" "res1" 1) ∧
    ((complete_investigation
        (complete_investigation
          ⟨[{ id := "i1", started_at := 0, ended_at := none, service := none,
              summary := none, root_cause := none, resolution := none,
              severity := some "unknown", tags := none, status := "in_progress" }],
            [], [], [], []⟩
          1 "i1" "rc1" "res1" none).fst
        2 "i1" "rc2" "res2" none).fst.investigations.filter
          (fun x => x.id == "i1")) =
      [{ id := "i1", started_at := 0, ended_at := some 2, service := none,
         summary := none, root_cause := some "rc2", resolution := some "res2",
         severity := some "unknown", tags := none, status := "completed" }] := by
  have h := (complete_investigation_spec
    ⟨[{ id := "i1", started_at := 0, ended_at := none, service := none,
        summary := none, root_cause := none, resolution := none,
        severity := some "unknown", tags := none, status := "in_progress" }],
      [], [], [], []⟩
    "i1" "rc1" "res1" "rc2" "res2" none none 1 2
    { id := "i1", started_at := 0, ended_at := none, service := none,
      summary := none, root_cause := none, resolution := none,
      severity := some "unknown", tags := none, status := "in_progress" }).1
    (by decide)
  exact ⟨h.1, h.2.2⟩

/-! ### Claim C6 -/

theorem add_finding_invs (db : DB) (nid : String) (now : Int)
    (iid ft ti : String) (d : Option String) :
    (add_finding db nid now iid ft ti d).fst.investigations = db.investigations := by
  unfold add_finding
  split <;> rfl

theorem add_finding_findings_of_mem (db : DB) (nid : String) (now : Int)
    (iid ft ti : String) (d : Option String)
    (hex : ∃ x ∈ db.investigations, x.id = iid) :
    (add_finding db nid now iid ft ti d).fst.findings =
      db.findings ++
        [{ id := nid, investigation_id := iid, timestamp := now, ftype := ft,
           title := some ti, data := d }] := by
  have hsome : (db.investigations.find? (fun x => x.id == iid)).isSome = true := by
    rw [List.find?_isSome]
    obtain ⟨x, hx, hid⟩ := hex
    exact ⟨x, hx, by simp [hid]⟩
  obtain ⟨v, hv⟩ := Option.isSome_iff_exists.mp hsome
  unfold add_finding
  rw [hv]

/-- One entry of a sequence of `add_finding` calls: the generated finding id,
the call time, and the `finding_type`, `title`, `data` arguments. -/
structure AddCall where
  fid : String
  time : Int
  ft : String
  title : String
  data : Option String
deriving DecidableEq

/-- Driver for a sequence of `add_finding` calls against one investigation. -/
def add_many (db : DB) (iid : String) : List AddCall → DB
  | [] => db
  | c :: rest => add_many (add_finding db c.fid c.time iid c.ft c.title c.data).fst iid rest

theorem add_many_invs (iid : String) :
    ∀ (calls : List AddCall) (db : DB),
      (add_many db iid calls).investigations = db.investigations := by
  intro calls
  induction calls with
  | nil => intro db; rfl
  | cons c rest ih =>
    intro db
    show (add_many (add_finding db c.fid c.time iid c.ft c.title c.data).fst
      iid rest).investigations = _
    rw [ih, add_finding_invs]

theorem add_many_filter_length (iid : String) :
    ∀ (calls : List AddCall) (db : DB),
      (∃ x ∈ db.investigations, x.id = iid) →
      ((add_many db iid calls).findings.filter
          (fun f => f.investigation_id == iid)).length =
        (db.findings.filter (fun f => f.investigation_id == iid)).length +
          calls.length := by
  intro calls
  induction calls with
  | nil => intro db _; simp [add_many]
  | cons c rest ih =>
    intro db hex
    have hex2 : ∃ x ∈ (add_finding db c.fid c.time iid c.ft c.title
        c.data).fst.investigations, x.id = iid := by
      rw [add_finding_invs]
      exact hex
    show ((add_many (add_finding db c.fid c.time iid c.ft c.title c.data).fst
      iid rest).findings.filter (fun f => f.investigation_id == iid)).length = _
    rw [ih _ hex2, add_finding_findings_of_mem db c.fid c.time iid c.ft c.title c.data hex]
    rw [List.filter_append]
    simp only [List.length_append, List.length_cons]
    have : (List.filter (fun f : Finding => f.investigation_id == iid)
        ([{ id := c.fid, investigation_id := iid, timestamp := c.time, ftype := c.ft,
            title := some c.title, data := c.data }] : List Finding)).length = 1 := by
      simp
    rw [this]
    omega

/-- C6: a freshly started investigation (fresh id, no findings referencing it)
is returned by `get_investigation` with `status=in_progress`, `ended_at` NULL
and `finding_count=0`; and after any sequence of (necessarily successful)
`add_finding` calls against it, `get_investigation` returns the findings
ordered by ascending timestamp with `finding_count` equal to the number of
adds. -/
theorem get_investigation_spec :
    (∀ (db : DB) (new_id : String) (now : Int) (service summary : Option String)
        (severity : String) (tags : Option String),
      (∀ x ∈ db.investigations, x.id ≠ new_id) →
      (∀ f ∈ db.findings, f.investigation_id ≠ new_id) →
      get_investigation
          (start_investigation db new_id now service summary severity tags).fst
          new_id =
        .ok { id := new_id, started_at := now, ended_at := none, service := service,
              summary := summary, root_cause := none, resolution := none,
              severity := some severity, tags := tags, status := "in_progress" }
          [] 0)
    ∧ (∀ (db : DB) (new_id : String) (now : Int) (service summary : Option String)
        (severity : String) (tags : Option String) (calls : List AddCall),
      (∀ x ∈ db.investigations, x.id ≠ new_id) →
      (∀ f ∈ db.findings, f.investigation_id ≠ new_id) →
      match get_investigation
          (add_many
            (start_investigation db new_id now service summary severity tags).fst
            new_id calls)
          new_id with
      | .ok _ fs cnt =>
        cnt = calls.length ∧ fs.Pairwise (fun a b => a.timestamp ≤ b.timestamp)
      | .error _ => False) := by
  constructor
  · intro db new_id now service summary severity tags hinv hfind
    have h1 : db.investigations.find? (fun x => x.id == new_id) = none := by
      rw [List.find?_eq_none]
      intro x hx
      simp [hinv x hx]
    have hf : ((start_investigation db new_id now service summary severity
        tags).fst.investigations.find? (fun x => x.id == new_id)) =
        some { id := new_id, started_at := now, ended_at := none, service := service,
               summary := summary, root_cause := none, resolution := none,
               severity := some severity, tags := tags, status := "in_progress" } := by
      show (db.investigations ++
        ([{ id := new_id, started_at := now, ended_at := none, service := service,
            summary := summary, root_cause := none, resolution := none,
            severity := some severity, tags := tags,
            status := "in_progress" }] : List Investigation)).find?
          (fun x => x.id == new_id) = _
      rw [List.find?_append, h1]
      simp [List.find?_cons]
    have hnil : ((start_investigation db new_id now service summary severity
        tags).fst.findings.filter (fun f => f.investigation_id == new_id)) = [] := by
      show db.findings.filter (fun f => f.investigation_id == new_id) = []
      rw [List.filter_eq_nil_iff]
      intro f hfm
      simp [hfind f hfm]
    unfold get_investigation
    rw [hf, hnil]
    rfl
  · intro db new_id now service summary severity tags calls hinv hfind
    have h1 : db.investigations.find? (fun x => x.id == new_id) = none := by
      rw [List.find?_eq_none]
      intro x hx
      simp [hinv x hx]
    have hfinv : (add_many
        (start_investigation db new_id now service summary severity tags).fst
        new_id calls).investigations =
        (start_investigation db new_id now service summary severity
          tags).fst.investigations :=
      add_many_invs new_id calls _
    have hf2 : ((add_many
        (start_investigation db new_id now service summary severity tags).fst
        new_id calls).investigations.find? (fun x => x.id == new_id)) =
        some { id := new_id, started_at := now, ended_at := none, service := service,
               summary := summary, root_cause := none, resolution := none,
               severity := some severity, tags := tags, status := "in_progress" } := by
      rw [hfinv]
      show (db.investigations ++
        ([{ id := new_id, started_at := now, ended_at := none, service := service,
            summary := summary, root_cause := none, resolution := none,
            severity := some severity, tags := tags,
            status := "in_progress" }] : List Investigation)).find?
          (fun x => x.id == new_id) = _
      rw [List.find?_append, h1]
      simp [List.find?_cons]
    have hget : get_investigation
        (add_many
          (start_investigation db new_id now service summary severity tags).fst
          new_id calls) new_id =
        .ok { id := new_id, started_at := now, ended_at := none, service := service,
              summary := summary, root_cause := none, resolution := none,
              severity := some severity, tags := tags, status := "in_progress" }
          (sortAscBy (fun f => f.timestamp)
            ((add_many
              (start_investigation db new_id now service summary severity tags).fst
              new_id calls).findings.filter (fun f => f.investigation_id == new_id)))
          ((sortAscBy (fun f => f.timestamp)
            ((add_many
              (start_investigation db new_id now service summary severity tags).fst
              new_id calls).findings.filter
                (fun f => f.investigation_id == new_id))).length) := by
      unfold get_investigation
      rw [hf2]
    rw [hget]
    refine ⟨?_, sortAscBy_pairwise _ _⟩
    rw [sortAscBy_length]
    have hex : ∃ x ∈ (start_investigation db new_id now service summary severity
        tags).fst.investigations, x.id = new_id := by
      refine ⟨{ id := new_id, started_at := now, ended_at := none, service := service,
                summary := summary, root_cause := none, resolution := none,
                severity := some severity, tags := tags, status := "in_progress" },
              ?_, rfl⟩
      show _ ∈ db.investigations ++
        ([{ id := new_id, started_at := now, ended_at := none, service := service,
            summary := summary, root_cause := none, resolution := none,
            severity := some severity, tags := tags,
            status := "in_progress" }] : List Investigation)
      exact List.mem_append_right _ (List.mem_singleton_self _)
    rw [add_many_filter_length new_id calls _ hex]
    have hz : ((start_investigation db new_id now service summary severity
        tags).fst.findings.filter (fun f => f.investigation_id == new_id)) = [] := by
      show db.findings.filter (fun f => f.investigation_id == new_id) = []
      rw [List.filter_eq_nil_iff]
      intro f hfm
      simp [hfind f hfm]
    rw [hz]
    simp

/-- Witness for C6: from an empty store, a fresh investigation shows
`in_progress`/NULL/`0`, and after two adds (with out-of-order call times) the
findings come back sorted with `finding_count = 2`. -/
theorem get_investigation_spec_witness :
    (get_investigation
        (start_investigation ⟨[], [], [], [], []⟩ "i1" 0 none none "unknown"
          none).fst "i1" =
      .ok { id := "i1", started_at := 0, ended_at := none, service := none,
            summary := none, root_cause := none, resolution := none,
            severity := some "unknown", tags := none, status := "in_progress" }
        [] 0) ∧
    (match get_investigation
        (add_many
          (start_investigation ⟨[], [], [], [], []⟩ "i1" 0 none none "unknown"
            none).fst "i1"
          [⟨"f1", 5, "log_error", "t1", none⟩, ⟨"f2", 3, "event", "t2", none⟩])
        "i1" with
      | .ok _ fs cnt =>
        cnt = 2 ∧ fs.Pairwise (fun a b => a.timestamp ≤ b.timestamp)
      | .error _ => False) := by
  constructor
  · exact get_investigation_spec.1 ⟨[], [], [], [], []⟩ "i1" 0 none none "unknown"
      none (by decide) (by decide)
  · exact get_investigation_spec.2 ⟨[], [], [], [], []⟩ "i1" 0 none none "unknown"
      none [⟨"f1", 5, "log_error", "t1", none⟩, ⟨"f2", 3, "event", "t2", none⟩]
      (by decide) (by decide)

/-! ### Claim C3 -/

/-- Counterexample to C3 as stated: `mark_discoveries_synced` called with a
malformed serialized id-list does not return a payload with an `error` field —
the `json.loads` exception propagates past the operation boundary (modelled as
`Except.error`), so not every failure condition appears as an `error` field of
a returned payload. -/
theorem mark_discoveries_synced_counterexample :
    mark_discoveries_synced ⟨[], [], [], [], []⟩ 0 (some IdsArg.malformed) none
      none = Except.error "json.JSONDecodeError" := rfl

/-- C3 (amended): the store operations return structured payloads — they are
total functions into payload types, and detected failures are `error`
payloads — except that `mark_discoveries_synced` propagates the JSON
deserialization exception: it returns a payload exactly when none of the
supplied id-list arguments is malformed, and the only exception it lets
escape is the parse error. -/
theorem mark_discoveries_synced_total (db : DB) (now : Int)
    (s d k : Option IdsArg) :
    ((∃ v, mark_discoveries_synced db now s d k = Except.ok v) ↔
      (s ≠ some IdsArg.malformed ∧ d ≠ some IdsArg.malformed ∧
        k ≠ some IdsArg.malformed))
    ∧ (∀ e, mark_discoveries_synced db now s d k = Except.error e →
        e = "json.JSONDecodeError") := by
  rcases s with _ | (_ | sids) <;> rcases d with _ | (_ | dids) <;>
    rcases k with _ | (_ | kids) <;>
    simp [mark_discoveries_synced, parseIds, Bind.bind, Except.bind]

/-- Witness for C3 (amended): with well-formed id lists the operation returns
a payload; the iff is applied at a concrete input. -/
theorem mark_discoveries_synced_total_witness :
    ∃ v, mark_discoveries_synced ⟨[], [], [], [], []⟩ 0 none none
      (some (IdsArg.idList [])) = Except.ok v :=
  (mark_discoveries_synced_total ⟨[], [], [], [], []⟩ 0 none none
    (some (IdsArg.idList []))).1.mpr ⟨by decide, by decide, by decide⟩

/-! ### Claim C9 -/

theorem markRows_filter_nil {ρ : Type} (getId : ρ → String) (setSync : ρ → ρ)
    (pending : ρ → Bool)
    (hid : ∀ r, getId (setSync r) = getId r)
    (hidem : ∀ r, setSync (setSync r) = setSync r)
    (hset : ∀ r, pending (setSync r) = false)
    (ids : List String) (rows : List ρ)
    (hcov : ∀ r ∈ rows, pending r = true → ids.contains (getId r) = true) :
    (markRows getId setSync rows ids).fst.filter pending = [] := by
  rw [markRows_fst getId setSync hid hidem]
  rw [List.filter_eq_nil_iff]
  intro a ha
  obtain ⟨r, hr, hrw⟩ := List.mem_map.mp ha
  by_cases hc : ids.contains (getId r) = true
  · rw [← hrw]
    simp only [hc, if_true, if_pos]
    simp [hset]
  · rw [← hrw]
    rw [if_neg hc]
    intro hp
    exact hc (hcov r hr hp)

theorem pending_service_mem (db : DB) (r : ServiceRow)
    (hr : r ∈ db.discovered_services) (hp : (r.synced_at == none) = true) :
    r ∈ (get_pending_discoveries db).services := by
  show r ∈ sortDescBy (fun x => x.discovered_at)
    (db.discovered_services.filter (fun x => x.synced_at == none))
  rw [sortDescBy_mem]
  exact List.mem_filter.mpr ⟨hr, hp⟩

theorem pending_dependency_mem (db : DB) (r : DependencyRow)
    (hr : r ∈ db.discovered_dependencies) (hp : (r.synced_at == none) = true) :
    r ∈ (get_pending_discoveries db).dependencies := by
  show r ∈ sortDescBy (fun x => x.confidence)
    (db.discovered_dependencies.filter (fun x => x.synced_at == none))
  rw [sortDescBy_mem]
  exact List.mem_filter.mpr ⟨hr, hp⟩

theorem pending_known_issue_mem (db : DB) (r : KnownIssueRow)
    (hr : r ∈ db.suggested_known_issues) (hp : (r.synced_at == none) = true) :
    r ∈ (get_pending_discoveries db).known_issues := by
  show r ∈ sortDescBy (fun x => x.occurrences)
    (db.suggested_known_issues.filter (fun x => x.synced_at == none))
  rw [sortDescBy_mem]
  exact List.mem_filter.mpr ⟨hr, hp⟩

theorem total_pending_eq (db : DB) :
    (get_pending_discoveries db).total_pending =
      (db.discovered_services.filter (fun r => r.synced_at == none)).length +
        (db.discovered_dependencies.filter (fun r => r.synced_at == none)).length +
        (db.suggested_known_issues.filter (fun r => r.synced_at == none)).length := by
  simp only [get_pending_discoveries, sortDescBy_length]

theorem mark_all_pending_clears (db : DB) (now : Int) :
    ∃ db2 c,
      mark_discoveries_synced db now
        (some (IdsArg.idList
          ((get_pending_discoveries db).services.map (fun r => r.id))))
        (some (IdsArg.idList
          ((get_pending_discoveries db).dependencies.map (fun r => r.id))))
        (some (IdsArg.idList
          ((get_pending_discoveries db).known_issues.map (fun r => r.id)))) =
        Except.ok (db2, c) ∧
      (get_pending_discoveries db2).total_pending = 0 := by
  refine ⟨_, _, rfl, ?_⟩
  rw [total_pending_eq]
  rw [markRows_filter_nil (fun r => r.id) (fun r => { r with synced_at := some now })
    (fun r => r.synced_at == none) (fun r => rfl) (fun r => rfl) (fun r => rfl)
    ((get_pending_discoveries db).services.map (fun r => r.id))
    db.discovered_services
    (fun r hr hp => by
      have hmem : r.id ∈ (get_pending_discoveries db).services.map (fun x => x.id) :=
        List.mem_map.mpr ⟨r, pending_service_mem db r hr hp, rfl⟩
      exact List.elem_iff.mpr hmem)]
  rw [markRows_filter_nil (fun r => r.id) (fun r => { r with synced_at := some now })
    (fun r => r.synced_at == none) (fun r => rfl) (fun r => rfl) (fun r => rfl)
    ((get_pending_discoveries db).dependencies.map (fun r => r.id))
    db.discovered_dependencies
    (fun r hr hp => by
      have hmem : r.id ∈ (get_pending_discoveries db).dependencies.map (fun x => x.id) :=
        List.mem_map.mpr ⟨r, pending_dependency_mem db r hr hp, rfl⟩
      exact List.elem_iff.mpr hmem)]
  rw [markRows_filter_nil (fun r => r.id) (fun r => { r with synced_at := some now })
    (fun r => r.synced_at == none) (fun r => rfl) (fun r => rfl) (fun r => rfl)
    ((get_pending_discoveries db).known_issues.map (fun r => r.id))
    db.suggested_known_issues
    (fun r hr hp => by
      have hmem : r.id ∈ (get_pending_discoveries db).known_issues.map (fun x => x.id) :=
        List.mem_map.mpr ⟨r, pending_known_issue_mem db r hr hp, rfl⟩
      exact List.elem_iff.mpr hmem)]
  rfl

theorem record_discovered_service_synced_frame
    (db : DB) (nid : String) (now : Int) (name : String)
    (ns depl de te st : Option String) :
    (∀ r2 ∈ (record_discovered_service db nid now name ns depl de
        te st).fst.discovered_services,
      r2.synced_at = none ∨
        ∃ r ∈ db.discovered_services, r.id = r2.id ∧ r.synced_at = r2.synced_at)
    ∧ (record_discovered_service db nid now name ns depl de
        te st).fst.discovered_dependencies = db.discovered_dependencies
    ∧ (record_discovered_service db nid now name ns depl de
        te st).fst.suggested_known_issues = db.suggested_known_issues := by
  unfold record_discovered_service
  cases hf : db.discovered_services.find? (fun r => r.name == name) with
  | some e =>
    refine ⟨?_, rfl, rfl⟩
    intro r2 hr2
    obtain ⟨r, hr, hrw⟩ := List.mem_map.mp hr2
    right
    refine ⟨r, hr, ?_⟩
    by_cases hn : (r.name == name) = true
    · rw [← hrw, if_pos hn]
      exact ⟨(serviceUpd_id e ns depl de te r).symm,
        (serviceUpd_synced e ns depl de te r).symm⟩
    · rw [← hrw, if_neg hn]
      exact ⟨rfl, rfl⟩
  | none =>
    refine ⟨?_, rfl, rfl⟩
    intro r2 hr2
    rcases List.mem_append.mp hr2 with hl | hs
    · right
      exact ⟨r2, hl, rfl, rfl⟩
    · left
      rw [List.mem_singleton.mp hs]

theorem record_discovered_dependency_synced_frame
    (db : DB) (nid : String) (now : Int) (fs ts : String)
    (ev : Option String) (conf : Rat) :
    (∀ r2 ∈ (record_discovered_dependency db nid now fs ts ev
        conf).fst.discovered_dependencies,
      r2.synced_at = none ∨
        ∃ r ∈ db.discovered_dependencies, r.id = r2.id ∧ r.synced_at = r2.synced_at)
    ∧ (record_discovered_dependency db nid now fs ts ev
        conf).fst.discovered_services = db.discovered_services
    ∧ (record_discovered_dependency db nid now fs ts ev
        conf).fst.suggested_known_issues = db.suggested_known_issues := by
  unfold record_discovered_dependency
  cases hf : db.discovered_dependencies.find? (fun r =>
      r.from_service == fs && r.to_service == ts) with
  | some e =>
    refine ⟨?_, rfl, rfl⟩
    intro r2 hr2
    obtain ⟨r, hr, hrw⟩ := List.mem_map.mp hr2
    right
    refine ⟨r, hr, ?_⟩
    by_cases hn : (r.id == e.id) = true
    · rw [← hrw, if_pos hn]
      exact ⟨rfl, rfl⟩
    · rw [← hrw, if_neg hn]
      exact ⟨rfl, rfl⟩
  | none =>
    refine ⟨?_, rfl, rfl⟩
    intro r2 hr2
    rcases List.mem_append.mp hr2 with hl | hs
    · right
      exact ⟨r2, hl, rfl, rfl⟩
    · left
      rw [List.mem_singleton.mp hs]

theorem suggest_known_issue_synced_frame
    (db : DB) (nid : String) (now : Int) (pat ca so : String)
    (sv invid : Option String) :
    (∀ r2 ∈ (suggest_known_issue db nid now pat ca so sv
        invid).fst.suggested_known_issues,
      r2.synced_at = none ∨
        ∃ r ∈ db.suggested_known_issues, r.id = r2.id ∧ r.synced_at = r2.synced_at)
    ∧ (suggest_known_issue db nid now pat ca so sv
        invid).fst.discovered_services = db.discovered_services
    ∧ (suggest_known_issue db nid now pat ca so sv
        invid).fst.discovered_dependencies = db.discovered_dependencies := by
  unfold suggest_known_issue
  cases hf : db.suggested_known_issues.find? (fun r => r.pattern == pat) with
  | some e =>
    refine ⟨?_, rfl, rfl⟩
    intro r2 hr2
    obtain ⟨r, hr, hrw⟩ := List.mem_map.mp hr2
    right
    refine ⟨r, hr, ?_⟩
    by_cases hn : (r.id == e.id) = true
    · rw [← hrw, if_pos hn]
      exact ⟨rfl, rfl⟩
    · rw [← hrw, if_neg hn]
      exact ⟨rfl, rfl⟩
  | none =>
    refine ⟨?_, rfl, rfl⟩
    intro r2 hr2
    rcases List.mem_append.mp hr2 with hl | hs
    · right
      exact ⟨r2, hl, rfl, rfl⟩
    · left
      rw [List.mem_singleton.mp hs]

theorem mark_counts_eq (db : DB) (now : Int) (sids dids kids : List String) :
    match mark_discoveries_synced db now (some (IdsArg.idList sids))
        (some (IdsArg.idList dids)) (some (IdsArg.idList kids)) with
    | Except.ok (_, c) =>
      c.services = (sids.map (fun i =>
          (db.discovered_services.filter (fun r => r.id == i)).length)).sum ∧
      c.dependencies = (dids.map (fun i =>
          (db.discovered_dependencies.filter (fun r => r.id == i)).length)).sum ∧
      c.known_issues = (kids.map (fun i =>
          (db.suggested_known_issues.filter (fun r => r.id == i)).length)).sum ∧
      c.total = c.services + c.dependencies + c.known_issues
    | Except.error _ => False := by
  refine ⟨?_, ?_, ?_, rfl⟩
  · exact markRows_snd (fun r => r.id) (fun r => { r with synced_at := some now })
      (fun r => rfl) sids db.discovered_services
  · exact markRows_snd (fun r => r.id) (fun r => { r with synced_at := some now })
      (fun r => rfl) dids db.discovered_dependencies
  · exact markRows_snd (fun r => r.id) (fun r => { r with synced_at := some now })
      (fun r => rfl) kids db.suggested_known_issues

/-- C9: (1) after a `get_pending_discoveries` call returning pending rows,
calling `mark_discoveries_synced` with all of the returned service, dependency
and known-issue ids makes a subsequent `get_pending_discoveries` report
`total_pending = 0`; (2)–(4) the three discovery-recording operations never
touch `synced_at`: every row after such a call either has `synced_at` NULL or
inherits the `synced_at` of the row with the same id before the call (and the
other two discovery tables are untouched), so `synced_at` stays NULL until an
explicit mark-synced call sets it; (5) `mark_discoveries_synced` reports
per-table counts driven by the affected-row count of each per-id update
(non-existent ids contribute zero) and their total. -/
theorem discoveries_sync_protocol :
    (∀ (db : DB) (now : Int), 0 < (get_pending_discoveries db).total_pending →
      ∃ db2 c, mark_discoveries_synced db now
          (some (IdsArg.idList
            ((get_pending_discoveries db).services.map (fun r => r.id))))
          (some (IdsArg.idList
            ((get_pending_discoveries db).dependencies.map (fun r => r.id))))
          (some (IdsArg.idList
            ((get_pending_discoveries db).known_issues.map (fun r => r.id)))) =
          Except.ok (db2, c) ∧
        (get_pending_discoveries db2).total_pending = 0)
    ∧ (∀ (db : DB) (nid : String) (now : Int) (name : String)
        (ns depl de te st : Option String),
      (∀ r2 ∈ (record_discovered_service db nid now name ns depl de
          te st).fst.discovered_services,
        r2.synced_at = none ∨
          ∃ r ∈ db.discovered_services, r.id = r2.id ∧ r.synced_at = r2.synced_at)
      ∧ (record_discovered_service db nid now name ns depl de
          te st).fst.discovered_dependencies = db.discovered_dependencies
      ∧ (record_discovered_service db nid now name ns depl de
          te st).fst.suggested_known_issues = db.suggested_known_issues)
    ∧ (∀ (db : DB) (nid : String) (now : Int) (fs ts : String)
        (ev : Option String) (conf : Rat),
      (∀ r2 ∈ (record_discovered_dependency db nid now fs ts ev
          conf).fst.discovered_dependencies,
        r2.synced_at = none ∨
          ∃ r ∈ db.discovered_dependencies, r.id = r2.id ∧ r.synced_at = r2.synced_at)
      ∧ (record_discovered_dependency db nid now fs ts ev
          conf).fst.discovered_services = db.discovered_services
      ∧ (record_discovered_dependency db nid now fs ts ev
          conf).fst.suggested_known_issues = db.suggested_known_issues)
    ∧ (∀ (db : DB) (nid : String) (now : Int) (pat ca so : String)
        (sv invid : Option String),
      (∀ r2 ∈ (suggest_known_issue db nid now pat ca so sv
          invid).fst.suggested_known_issues,
        r2.synced_at = none ∨
          ∃ r ∈ db.suggested_known_issues, r.id = r2.id ∧ r.synced_at = r2.synced_at)
      ∧ (suggest_known_issue db nid now pat ca so sv
          invid).fst.discovered_services = db.discovered_services
      ∧ (suggest_known_issue db nid now pat ca so sv
          invid).fst.discovered_dependencies = db.discovered_dependencies)
    ∧ (∀ (db : DB) (now : Int) (sids dids kids : List String),
      match mark_discoveries_synced db now (some (IdsArg.idList sids))
          (some (IdsArg.idList dids)) (some (IdsArg.idList kids)) with
      | Except.ok (_, c) =>
        c.services = (sids.map (fun i =>
            (db.discovered_services.filter (fun r => r.id == i)).length)).sum ∧
        c.dependencies = (dids.map (fun i =>
            (db.discovered_dependencies.filter (fun r => r.id == i)).length)).sum ∧
        c.known_issues = (kids.map (fun i =>
            (db.suggested_known_issues.filter (fun r => r.id == i)).length)).sum ∧
        c.total = c.services + c.dependencies + c.known_issues
      | Except.error _ => False) :=
  ⟨fun db now _ => mark_all_pending_clears db now,
   fun db nid now name ns depl de te st =>
     record_discovered_service_synced_frame db nid now name ns depl de te st,
   fun db nid now fs ts ev conf =>
     record_discovered_dependency_synced_frame db nid now fs ts ev conf,
   fun db nid now pat ca so sv invid =>
     suggest_known_issue_synced_frame db nid now pat ca so sv invid,
   fun db now sids dids kids => mark_counts_eq db now sids dids kids⟩

/-- Witness for C9: a store with one pending row in each discovery table has
`total_pending = 3 > 0`, and marking all returned ids clears it to zero. -/
theorem discoveries_sync_protocol_witness :
    0 < (get_pending_discoveries
      ⟨[], [], [⟨"s1", "svc", none, none, none, none, 0, none, none⟩],
        [⟨"d1", "a", "b", none, 1, 0, none⟩],
        [⟨"k1", "p", "c", "s", none, 1, [], 0, none⟩]⟩).total_pending ∧
    ∃ db2 c, mark_discoveries_synced
        ⟨[], [], [⟨"s1", "svc", none, none, none, none, 0, none, none⟩],
          [⟨"d1", "a", "b", none, 1, 0, none⟩],
          [⟨"k1", "p", "c", "s", none, 1, [], 0, none⟩]⟩ 7
        (some (IdsArg.idList
          ((get_pending_discoveries
            ⟨[], [], [⟨"s1", "svc", none, none, none, none, 0, none, none⟩],
              [⟨"d1", "a", "b", none, 1, 0, none⟩],
              [⟨"k1", "p", "c", "s", none, 1, [], 0, none⟩]⟩).services.map
                (fun r => r.id))))
        (some (IdsArg.idList
          ((get_pending_discoveries
            ⟨[], [], [⟨"s1", "svc", none, none, none, none, 0, none, none⟩],
              [⟨"d1", "a", "b", none, 1, 0, none⟩],
              [⟨"k1", "p", "c", "s", none, 1, [], 0, none⟩]⟩).dependencies.map
                (fun r => r.id))))
        (some (IdsArg.idList
          ((get_pending_discoveries
            ⟨[], [], [⟨"s1", "svc", none, none, none, none, 0, none, none⟩],
              [⟨"d1", "a", "b", none, 1, 0, none⟩],
              [⟨"k1", "p", "c", "s", none, 1, [], 0, none⟩]⟩).known_issues.map
                (fun r => r.id)))) =
        Except.ok (db2, c) ∧
      (get_pending_discoveries db2).total_pending = 0 :=
  ⟨by decide,
   discoveries_sync_protocol.1
     ⟨[], [], [⟨"s1", "svc", none, none, none, none, 0, none, none⟩],
       [⟨"d1", "a", "b", none, 1, 0, none⟩],
       [⟨"k1", "p", "c", "s", none, 1, [], 0, none⟩]⟩ 7 (by decide)⟩

/-! ### Claim C10 -/

theorem not_in_pending_services (db : DB) (r : ServiceRow) (t : Int)
    (h : r.synced_at = some t) : r ∉ (get_pending_discoveries db).services := by
  intro hmem
  have hf : r ∈ db.discovered_services.filter (fun x => x.synced_at == none) := by
    have hs : r ∈ sortDescBy (fun x => x.discovered_at)
        (db.discovered_services.filter (fun x => x.synced_at == none)) := hmem
    exact (sortDescBy_mem _ _ _).mp hs
  have hp := (List.mem_filter.mp hf).2
  rw [h] at hp
  simp at hp

theorem not_in_pending_dependencies (db : DB) (r : DependencyRow) (t : Int)
    (h : r.synced_at = some t) : r ∉ (get_pending_discoveries db).dependencies := by
  intro hmem
  have hf : r ∈ db.discovered_dependencies.filter (fun x => x.synced_at == none) := by
    have hs : r ∈ sortDescBy (fun x => x.confidence)
        (db.discovered_dependencies.filter (fun x => x.synced_at == none)) := hmem
    exact (sortDescBy_mem _ _ _).mp hs
  have hp := (List.mem_filter.mp hf).2
  rw [h] at hp
  simp at hp

theorem not_in_pending_known_issues (db : DB) (r : KnownIssueRow) (t : Int)
    (h : r.synced_at = some t) : r ∉ (get_pending_discoveries db).known_issues := by
  intro hmem
  have hf : r ∈ db.suggested_known_issues.filter (fun x => x.synced_at == none) := by
    have hs : r ∈ sortDescBy (fun x => x.occurrences)
        (db.suggested_known_issues.filter (fun x => x.synced_at == none)) := hmem
    exact (sortDescBy_mem _ _ _).mp hs
  have hp := (List.mem_filter.mp hf).2
  rw [h] at hp
  simp at hp

/-- C10: a discovery row already marked synced (`synced_at = some t`) that is
matched by a later `record_discovered_service` / `record_discovered_dependency`
/ `suggest_known_issue` call on its key keeps its `synced_at` (it is never
reset to NULL), so the updated row does not reappear in
`get_pending_discoveries`. -/
theorem synced_rows_stay_synced :
    (∀ (db : DB) (nid : String) (now : Int) (ns depl de te st : Option String)
        (r : ServiceRow) (t : Int),
      r ∈ db.discovered_services → r.synced_at = some t →
      ∃ r2 ∈ (record_discovered_service db nid now r.name ns depl de
          te st).fst.discovered_services,
        r2.id = r.id ∧ r2.synced_at = some t ∧
          r2 ∉ (get_pending_discoveries (record_discovered_service db nid now
            r.name ns depl de te st).fst).services)
    ∧ (∀ (db : DB) (nid : String) (now : Int) (ev : Option String) (conf : Rat)
        (r : DependencyRow) (t : Int),
      r ∈ db.discovered_dependencies → r.synced_at = some t →
      ∃ r2 ∈ (record_discovered_dependency db nid now r.from_service r.to_service
          ev conf).fst.discovered_dependencies,
        r2.id = r.id ∧ r2.synced_at = some t ∧
          r2 ∉ (get_pending_discoveries (record_discovered_dependency db nid now
            r.from_service r.to_service ev conf).fst).dependencies)
    ∧ (∀ (db : DB) (nid : String) (now : Int) (ca so : String)
        (sv invid : Option String) (r : KnownIssueRow) (t : Int),
      r ∈ db.suggested_known_issues → r.synced_at = some t →
      ∃ r2 ∈ (suggest_known_issue db nid now r.pattern ca so sv
          invid).fst.suggested_known_issues,
        r2.id = r.id ∧ r2.synced_at = some t ∧
          r2 ∉ (get_pending_discoveries (suggest_known_issue db nid now
            r.pattern ca so sv invid).fst).known_issues) := by
  refine ⟨?_, ?_, ?_⟩
  · intro db nid now ns depl de te st r t hr ht
    have hsome : (db.discovered_services.find? (fun x => x.name == r.name)).isSome
        = true :=
      List.find?_isSome.mpr ⟨r, hr, by simp⟩
    obtain ⟨e, he⟩ := Option.isSome_iff_exists.mp hsome
    refine ⟨serviceUpd e ns depl de te r, ?_, serviceUpd_id e ns depl de te r, ?_, ?_⟩
    · unfold record_discovered_service
      rw [he]
      exact List.mem_map.mpr ⟨r, hr, by rw [if_pos (by simp)]⟩
    · rw [serviceUpd_synced]
      exact ht
    · apply not_in_pending_services _ _ t
      rw [serviceUpd_synced]
      exact ht
  · intro db nid now ev conf r t hr ht
    have hsome : (db.discovered_dependencies.find? (fun x =>
        x.from_service == r.from_service && x.to_service == r.to_service)).isSome
        = true :=
      List.find?_isSome.mpr ⟨r, hr, by simp⟩
    obtain ⟨e, he⟩ := Option.isSome_iff_exists.mp hsome
    by_cases hid : (r.id == e.id) = true
    · refine ⟨{ r with
          confidence := max e.confidence conf,
          evidence := mergeEvidence e.evidence ev }, ?_, rfl, ht, ?_⟩
      · unfold record_discovered_dependency
        rw [he]
        exact List.mem_map.mpr ⟨r, hr, by rw [if_pos hid]⟩
      · exact not_in_pending_dependencies _ _ t ht
    · refine ⟨r, ?_, rfl, ht, ?_⟩
      · unfold record_discovered_dependency
        rw [he]
        exact List.mem_map.mpr ⟨r, hr, by rw [if_neg hid]⟩
      · exact not_in_pending_dependencies _ _ t ht
  · intro db nid now ca so sv invid r t hr ht
    have hsome : (db.suggested_known_issues.find? (fun x =>
        x.pattern == r.pattern)).isSome = true :=
      List.find?_isSome.mpr ⟨r, hr, by simp⟩
    obtain ⟨e, he⟩ := Option.isSome_iff_exists.mp hsome
    by_cases hid : (r.id == e.id) = true
    · refine ⟨{ r with
          occurrences := e.occurrences + 1,
          investigation_ids :=
            if truthy invid &&
                !(e.investigation_ids.contains (invid.getD "")) then
              e.investigation_ids ++ [invid.getD ""]
            else e.investigation_ids,
          cause := ca, solution := so, services := sv }, ?_, rfl, ht, ?_⟩
      · unfold suggest_known_issue
        rw [he]
        exact List.mem_map.mpr ⟨r, hr, by rw [if_pos hid]⟩
      · exact not_in_pending_known_issues _ _ t ht
    · refine ⟨r, ?_, rfl, ht, ?_⟩
      · unfold suggest_known_issue
        rw [he]
        exact List.mem_map.mpr ⟨r, hr, by rw [if_neg hid]⟩
      · exact not_in_pending_known_issues _ _ t ht

/-- Witness for C10: a service row already synced at time 5 keeps
`synced_at = 5` through a later `record_discovered_service` call on its name
and stays out of `get_pending_discoveries`. -/
theorem synced_rows_stay_synced_witness :
    ∃ r2 ∈ (record_discovered_service
        ⟨[], [], [⟨"s1", "svc", none, none, none, none, 0, none, some 5⟩], [], []⟩
        "n1" 9 "svc" (some "ns") none none none none).fst.discovered_services,
      r2.id = "s1" ∧ r2.synced_at = some 5 ∧
        r2 ∉ (get_pending_discoveries (record_discovered_service
          ⟨[], [], [⟨"s1", "svc", none, none, none, none, 0, none, some 5⟩], [], []⟩
          "n1" 9 "svc" (some "ns") none none none none).fst).services :=
  synced_rows_stay_synced.1
    ⟨[], [], [⟨"s1", "svc", none, none, none, none, 0, none, some 5⟩], [], []⟩
    "n1" 9 (some "ns") none none none none
    ⟨"s1", "svc", none, none, none, none, 0, none, some 5⟩ 5
    (List.mem_singleton_self _) rfl

/-! ### Claim C7 -/

/-- Modelled from the spec wording of C7 ("case-insensitive substring match"):
a nullable text column matches the query if the lower-cased query occurs as a
contiguous substring of the lower-cased column. Used only to compare the
claimed behaviour against the code's `LIKE` matching. -/
def specSubstringCI (field : Option String) (q : String) : Bool :=
  match field with
  | none => false
  | some s => isSubstr (lowerList q.toList) (lowerList s.toList)

/-- Counterexample to C7 as stated: with the query `"a%b"`,
`search_investigations` returns an investigation whose summary is `"aXb"`
even though no field contains `"a%b"` as a substring — the `%` in the query is
a `LIKE` wildcard, not a literal character, so the match is not a plain
case-insensitive substring match. -/
theorem search_investigations_counterexample :
    (search_investigations
      ⟨[⟨"i1", 0, none, none, some "aXb", none, none, some "unknown", none,
          "in_progress"⟩], [], [], [], []⟩
      0 (some "a%b") none 0 20).investigations =
      [⟨"i1", 0, none, none, some "aXb", none, none, some "unknown", none,
        "in_progress"⟩] ∧
    (specSubstringCI (some "aXb") "a%b" || specSubstringCI none "a%b") = false := by
  decide

/-- C7 (amended): `search_investigations` returns only investigations with
`started_at ≥ now − days_ago` (an investigation started exactly at the cutoff
is included, anything earlier is excluded), matched — when a query is given —
by SQL `LIKE '%query%'` against summary, root_cause, resolution and tags (OR
across fields; for queries without `%`/`_` wildcards this is a
case-insensitive substring match), with exact match on service when given,
ordered by `started_at` descending and capped at `limit` (all matching rows
are returned when they fit within `limit`). -/
theorem search_investigations_filters (db : DB) (now : Int)
    (query service : Option String) (days_ago : Int) (limit : Nat) :
    (∀ r ∈ (search_investigations db now query service days_ago
        limit).investigations,
      r ∈ db.investigations ∧
        now - days_ago * 86400 ≤ r.started_at ∧
        (truthy query = true →
          (likeOpt r.summary (query.getD "") || likeOpt r.root_cause (query.getD "") ||
            likeOpt r.resolution (query.getD "") ||
            likeOpt r.tags (query.getD "")) = true) ∧
        (truthy service = true → r.service = service))
    ∧ (search_investigations db now query service days_ago
        limit).investigations.Pairwise (fun a b => b.started_at ≤ a.started_at)
    ∧ (search_investigations db now query service days_ago
        limit).investigations.length ≤ limit
    ∧ ((db.investigations.filter (searchCond now query service days_ago)).length ≤
          limit →
        ∀ r ∈ db.investigations, searchCond now query service days_ago r = true →
          r ∈ (search_investigations db now query service days_ago
            limit).investigations) := by
  have hres : (search_investigations db now query service days_ago
      limit).investigations =
      (sortDescBy (fun r => r.started_at)
        (db.investigations.filter (searchCond now query service days_ago))).take
        limit := rfl
  refine ⟨?_, ?_, ?_, ?_⟩
  · intro r hr
    rw [hres] at hr
    have hr3 : r ∈ db.investigations.filter (searchCond now query service days_ago) :=
      (sortDescBy_mem _ _ _).mp (mem_take_of_mem hr)
    obtain ⟨hmem, hcond⟩ := List.mem_filter.mp hr3
    simp only [searchCond, Bool.and_eq_true, decide_eq_true_eq] at hcond
    obtain ⟨⟨hA, hB⟩, hC⟩ := hcond
    refine ⟨hmem, hC, ?_, ?_⟩
    · intro htq
      rw [if_pos htq] at hA
      exact hA
    · intro hts
      rw [if_pos hts] at hB
      exact beq_iff_eq.mp hB
  · rw [hres]
    exact List.Pairwise.sublist (List.take_sublist _ _) (sortDescBy_pairwise _ _)
  · rw [hres, List.length_take]
    exact min_le_left _ _
  · intro hlen r hmem hcond
    rw [hres]
    have hsl : (sortDescBy (fun r => r.started_at)
        (db.investigations.filter (searchCond now query service
          days_ago))).length ≤ limit := by
      rw [sortDescBy_length]
      exact hlen
    rw [List.take_of_length_le hsl, sortDescBy_mem]
    exact List.mem_filter.mpr ⟨hmem, hcond⟩

/-- Witness for C7 (amended): with `days_ago = 7` and `now = 0`, an
investigation started exactly at the cutoff (−604800 s) and matching
`"timeout"` is returned, and one started one second earlier is not, even
though its text matches. -/
theorem search_investigations_filters_witness :
    (⟨"i1", -604800, none, none, some "timeout in db", none, none,
        some "unknown", none, "in_progress"⟩ : Investigation) ∈
      (search_investigations
        ⟨[⟨"i1", -604800, none, none, some "timeout in db", none, none,
            some "unknown", none, "in_progress"⟩,
          ⟨"i2", -604801, none, none, some "timeout in db", none, none,
            some "unknown", none, "in_progress"⟩], [], [], [], []⟩
        0 (some "timeout") none 7 20).investigations ∧
    (⟨"i2", -604801, none, none, some "timeout in db", none, none,
        some "unknown", none, "in_progress"⟩ : Investigation) ∉
      (search_investigations
        ⟨[⟨"i1", -604800, none, none, some "timeout in db", none, none,
            some "unknown", none, "in_progress"⟩,
          ⟨"i2", -604801, none, none, some "timeout in db", none, none,
            some "unknown", none, "in_progress"⟩], [], [], [], []⟩
        0 (some "timeout") none 7 20).investigations := by
  have h := search_investigations_filters
    ⟨[⟨"i1", -604800, none, none, some "timeout in db", none, none,
        some "unknown", none, "in_progress"⟩,
      ⟨"i2", -604801, none, none, some "timeout in db", none, none,
        some "unknown", none, "in_progress"⟩], [], [], [], []⟩
    0 (some "timeout") none 7 20
  constructor
  · exact h.2.2.2 (by decide) _ (by decide) (by decide)
  · intro hmem
    have hs := (h.1 _ hmem).2.1
    have hs2 : (0 : Int) - 7 * 86400 ≤ (-604801 : Int) := hs
    omega

/-! ### Claim C8 -/

/-- Counterexample to C8 as stated: with an error message given, a completed
candidate whose score is 0 is dropped entirely — here the only candidate is
not returned although `limit = 5` — so the function does not return the top
`limit` of the scored candidates. -/
theorem find_similar_investigations_counterexample :
    (find_similar_investigations
      ⟨[⟨"i1", 0, some 1, none, some "y", some "y", some "r", some "unknown",
          none, "completed"⟩], [], [], [], []⟩
      (some "x") none 5).similar_investigations = [] ∧
    simCandidates
      ⟨[⟨"i1", 0, some 1, none, some "y", some "y", some "r", some "unknown",
          none, "completed"⟩], [], [], [], []⟩ none =
      [⟨"i1", 0, some 1, none, some "y", some "y", some "r", some "unknown",
        none, "completed"⟩] := by
  decide

/-- C8 (amended): `find_similar_investigations` draws its candidates from the
completed investigations (exact service filter when given), most recent first
and at most 100; without an error message it returns the `limit` most recent
candidates; with one it scores candidates by substring presence (+10
root_cause, +5 summary, +3 tag overlap), keeps only candidates with a
positive score, sorts those by descending score and returns the top `limit`
(all of them when they fit within `limit`). -/
theorem find_similar_investigations_ranked (db : DB) (err sv : Option String)
    (limit : Nat) :
    (truthy err = false →
      (find_similar_investigations db err sv limit).similar_investigations =
        (simCandidates db sv).take limit)
    ∧ (truthy err = true →
      (∀ inv ∈ (find_similar_investigations db err sv
          limit).similar_investigations,
        inv ∈ simCandidates db sv ∧
          0 < invScore (lowerList ((err.getD "").toList)) inv)
      ∧ ((find_similar_investigations db err sv
          limit).similar_investigations.map
            (invScore (lowerList ((err.getD "").toList)))).Pairwise
          (fun a b => b ≤ a)
      ∧ (find_similar_investigations db err sv
          limit).similar_investigations.length ≤ limit
      ∧ (((simCandidates db sv).filter (fun c =>
            decide (0 < invScore (lowerList ((err.getD "").toList)) c))).length ≤
              limit →
          ∀ c ∈ simCandidates db sv,
            0 < invScore (lowerList ((err.getD "").toList)) c →
            c ∈ (find_similar_investigations db err sv
              limit).similar_investigations))
    ∧ (∀ c ∈ simCandidates db sv,
        c.status = "completed" ∧ c ∈ db.investigations ∧
          (truthy sv = true → c.service = sv))
    ∧ (simCandidates db sv).length ≤ 100
    ∧ (simCandidates db sv).Pairwise (fun a b => b.started_at ≤ a.started_at) := by
  refine ⟨?_, ?_, ?_, ?_, ?_⟩
  · intro herr
    simp only [find_similar_investigations, herr, Bool.false_eq_true, if_false]
  · intro herr
    have hres : (find_similar_investigations db err sv
        limit).similar_investigations =
        ((sortDescBy (fun p => p.fst)
          (((simCandidates db sv).map (fun inv =>
            (invScore (lowerList ((err.getD "").toList)) inv, inv))).filter
            (fun p => decide (0 < p.fst)))).take limit).map (fun p => p.snd) := by
      simp only [find_similar_investigations, herr, eq_self_iff_true, if_true]
    have hfst : ∀ p ∈ ((simCandidates db sv).map (fun inv =>
        (invScore (lowerList ((err.getD "").toList)) inv, inv))).filter
        (fun p => decide (0 < p.fst)),
        p.fst = invScore (lowerList ((err.getD "").toList)) p.snd := by
      intro p hp
      obtain ⟨c, _, hcp⟩ := List.mem_map.mp (List.mem_filter.mp hp).1
      rw [← hcp]
    refine ⟨?_, ?_, ?_, ?_⟩
    · intro inv hinv
      rw [hres] at hinv
      obtain ⟨p, hp, hps⟩ := List.mem_map.mp hinv
      have hp2 : p ∈ ((simCandidates db sv).map (fun inv =>
          (invScore (lowerList ((err.getD "").toList)) inv, inv))).filter
          (fun p => decide (0 < p.fst)) :=
        (sortDescBy_mem _ _ _).mp (mem_take_of_mem hp)
      obtain ⟨hp3, hp4⟩ := List.mem_filter.mp hp2
      obtain ⟨c, hc, hcp⟩ := List.mem_map.mp hp3
      have hinv_c : inv = c := by
        rw [← hps, ← hcp]
      rw [hinv_c]
      refine ⟨hc, ?_⟩
      have := of_decide_eq_true hp4
      rw [hfst p hp2] at this
      rw [← hcp] at this
      exact this
    · rw [hres, List.map_map]
      have hpw : (((sortDescBy (fun p => p.fst)
          (((simCandidates db sv).map (fun inv =>
            (invScore (lowerList ((err.getD "").toList)) inv, inv))).filter
            (fun p => decide (0 < p.fst)))).take limit)).Pairwise
          (fun p q => q.fst ≤ p.fst) :=
        List.Pairwise.sublist (List.take_sublist _ _) (sortDescBy_pairwise _ _)
      rw [List.pairwise_map]
      refine hpw.imp_of_mem ?_
      intro p q hp hq hle
      have hp2 := (sortDescBy_mem _ _ _).mp (mem_take_of_mem hp)
      have hq2 := (sortDescBy_mem _ _ _).mp (mem_take_of_mem hq)
      show invScore _ q.snd ≤ invScore _ p.snd
      rw [← hfst p hp2, ← hfst q hq2]
      exact hle
    · rw [hres, List.length_map, List.length_take]
      exact min_le_left _ _
    · intro hlen c hc hpos
      rw [hres]
      have hplen : (((simCandidates db sv).map (fun inv =>
          (invScore (lowerList ((err.getD "").toList)) inv, inv))).filter
          (fun p => decide (0 < p.fst))).length ≤ limit := by
        rw [List.filter_map, List.length_map]
        exact hlen
      have hsl : (sortDescBy (fun p => p.fst)
          (((simCandidates db sv).map (fun inv =>
            (invScore (lowerList ((err.getD "").toList)) inv, inv))).filter
            (fun p => decide (0 < p.fst)))).length ≤ limit := by
        rw [sortDescBy_length]
        exact hplen
      rw [List.take_of_length_le hsl]
      refine List.mem_map.mpr ⟨(invScore (lowerList ((err.getD "").toList)) c, c),
        ?_, rfl⟩
      rw [sortDescBy_mem]
      refine List.mem_filter.mpr ⟨List.mem_map.mpr ⟨c, hc, rfl⟩, ?_⟩
      exact decide_eq_true hpos
  · intro c hc
    have hc2 : c ∈ db.investigations.filter (fun r =>
        r.status == "completed" &&
          (if truthy sv = true then r.service == sv else true)) :=
      (sortDescBy_mem _ _ _).mp (mem_take_of_mem hc)
    obtain ⟨hmem, hcond⟩ := List.mem_filter.mp hc2
    rw [Bool.and_eq_true] at hcond
    obtain ⟨hst, hsv⟩ := hcond
    refine ⟨beq_iff_eq.mp hst, hmem, ?_⟩
    intro htv
    rw [if_pos htv] at hsv
    exact beq_iff_eq.mp hsv
  · unfold simCandidates
    rw [List.length_take]
    exact min_le_left _ _
  · unfold simCandidates
    exact List.Pairwise.sublist (List.take_sublist _ _) (sortDescBy_pairwise _ _)

/-- Witness for C8 (amended): with error message "refused", the completed
investigation whose root cause contains it (+10) is returned, and the
zero-scoring completed investigation is not. -/
theorem find_similar_investigations_ranked_witness :
    (⟨"i1", 10, some 11, none, some "s", some "connection refused to redis",
        some "r", some "unknown", none, "completed"⟩ : Investigation) ∈
      (find_similar_investigations
        ⟨[⟨"i1", 10, some 11, none, some "s", some "connection refused to redis",
            some "r", some "unknown", none, "completed"⟩,
          ⟨"i2", 5, some 6, none, some "s", some "oom", some "r", some "unknown",
            none, "completed"⟩], [], [], [], []⟩
        (some "refused") none 5).similar_investigations ∧
    (⟨"i2", 5, some 6, none, some "s", some "oom", some "r", some "unknown",
        none, "completed"⟩ : Investigation) ∉
      (find_similar_investigations
        ⟨[⟨"i1", 10, some 11, none, some "s", some "connection refused to redis",
            some "r", some "unknown", none, "completed"⟩,
          ⟨"i2", 5, some 6, none, some "s", some "oom", some "r", some "unknown",
            none, "completed"⟩], [], [], [], []⟩
        (some "refused") none 5).similar_investigations := by
  have h := (find_similar_investigations_ranked
    ⟨[⟨"i1", 10, some 11, none, some "s", some "connection refused to redis",
        some "r", some "unknown", none, "completed"⟩,
      ⟨"i2", 5, some 6, none, some "s", some "oom", some "r", some "unknown",
        none, "completed"⟩], [], [], [], []⟩
    (some "refused") none 5).2.1 rfl
  constructor
  · exact h.2.2.2 (by decide) _ (by decide) (by decide)
  · intro hmem
    exact absurd (h.1 _ hmem).2 (by decide)
